import Mathlib

/-!
Shallow embedding of `kernel/time/clockevents.c` (clock event device layer of
the Linux 3.4 based kernel in this repository, built for 32-bit ARM).

Machine-integer conventions used throughout:
* `u64` values are `Nat` together with explicit `% 2 ^ 64` where the C
  arithmetic can wrap;
* `unsigned long` / `unsigned int` are 32 bits on this architecture, so casts
  to them are `% 2 ^ 32`;
* `s64` (`ktime_t.tv64`, `int64_t`) values are `Int`, with two's-complement
  wrapping made explicit by `wrap64`.
-/

namespace Clockevents

/-- `KTIME_MAX`: the largest `s64` value, used as "+infinity" for `next_event`. -/
def KTIME_MAX : Int := 2 ^ 63 - 1

/-- `-ETIME` is the TIMING failure return code; `ETIME = 62` in errno.h. -/
def ETIME : Int := 62

/-- Two's-complement wrap of an integer into the `s64` range
`[-2^63, 2^63)`; models C signed 64-bit overflow behaviour. -/
def wrap64 (x : Int) : Int := (x + 2 ^ 63) % 2 ^ 64 - 2 ^ 63

/-- The C cast `(unsigned long long) x` of a signed 64-bit quantity:
reduce modulo `2^64` and read as non-negative. -/
def toU64 (x : Int) : Nat := (x % 2 ^ 64).toNat

/-- The C cast `(int64_t) x` of an unsigned 64-bit quantity. -/
def u64toI64 (n : Nat) : Int := wrap64 n

/-- Device modes, `enum clock_event_mode`. -/
inductive ClockEventMode where
  | UNUSED
  | SHUTDOWN
  | PERIODIC
  | ONESHOT
  | RESUME
deriving DecidableEq, Repr

/-- Feature flag `CLOCK_EVT_FEAT_PERIODIC` (0x000001). -/
def CLOCK_EVT_FEAT_PERIODIC : Nat := 1
/-- Feature flag `CLOCK_EVT_FEAT_ONESHOT` (0x000002). -/
def CLOCK_EVT_FEAT_ONESHOT : Nat := 2
/-- Feature flag `CLOCK_EVT_FEAT_KTIME` (0x000004): the device is armed with
an absolute `ktime_t` value through `set_next_ktime`. -/
def CLOCK_EVT_FEAT_KTIME : Nat := 4

/-- `struct clock_event_device`: the fields that the code in
`kernel/time/clockevents.c` reads or writes.  C types: `mult`, `shift` are
`u32`; `min_delta_ns`, `max_delta_ns` are `u64`; `min_delta_ticks`,
`max_delta_ticks` and `retries` are `unsigned long` (32-bit here);
`next_event` is `ktime_t` (an `s64`); `features` is a bit mask;
`cpumask` is a pointer that may be NULL (hence `Option`).
The function-pointer members (`set_mode`, `set_next_event`,
`set_next_ktime`) are modelled separately: the hardware callbacks are
external collaborators, so their return codes live in `ClockEnv` and the
calls made to them are recorded in the operation results. -/
structure ClockEventDevice where
  mult : Nat
  shift : Nat
  mode : ClockEventMode
  next_event : Int
  min_delta_ns : Nat
  max_delta_ns : Nat
  min_delta_ticks : Nat
  max_delta_ticks : Nat
  retries : Nat
  features : Nat
  cpumask : Option (Finset Nat)
deriving DecidableEq

/-- The external collaborators of the event programmer: the monotonic clock
(`ktime_get`, a fixed instant here) and the driver-supplied arming callbacks
with their return codes.  `set_next_event` receives a tick count
(`unsigned long`), `set_next_ktime` an absolute `ktime_t`. -/
structure ClockEnv where
  now : Int
  set_next_event : Nat → Int
  set_next_ktime : Int → Int

/-- The shift-overflow clamp of `cev_delta2ns`:
`clc = (u64) latch << evt->shift;` followed by
`if ((clc >> evt->shift) != (u64) latch) clc = ~0ULL;`. -/
def cev_clamp (latch shift : Nat) : Nat :=
  if ((latch <<< shift) % 2 ^ 64) >>> shift ≠ latch then 2 ^ 64 - 1
  else (latch <<< shift) % 2 ^ 64

/-- The conditional rounding step of `cev_delta2ns`:
`if ((~0ULL - clc > rnd) && (!ismax || evt->mult <= (1U << evt->shift))) clc += rnd;`.
`1U` is a 32-bit unsigned int, hence the `% 2 ^ 32` on the shifted constant. -/
def cev_round (clc rnd mult shift : Nat) (ismax : Bool) : Nat :=
  if 2 ^ 64 - 1 - clc > rnd ∧ (ismax = false ∨ mult ≤ 2 ^ shift % 2 ^ 32) then clc + rnd
  else clc

/-- `cev_delta2ns(latch, evt, ismax)`: convert a latch value (device ticks)
to nanoseconds, bound checked.  The `!evt->mult` branch of the source repairs
`evt->mult` to 1 in place (with `WARN_ON(1)`); here the repaired multiplier is
what the rest of the computation reads. -/
def cev_delta2ns (latch : Nat) (evt : ClockEventDevice) (ismax : Bool) : Nat :=
  let mult := if evt.mult = 0 then 1 else evt.mult
  let clc := cev_round (cev_clamp latch evt.shift) (mult - 1) mult evt.shift ismax
  let q := clc / mult
  if q > 1000 then q else 1000

/-- `clockevent_delta2ns(latch, evt)`. -/
def clockevent_delta2ns (latch : Nat) (evt : ClockEventDevice) : Nat :=
  cev_delta2ns latch evt false

/-- The tick-count computation of the event programmer:
`clc = ((unsigned long long) delta * dev->mult) >> dev->shift;`
(64-bit multiply, so the product is reduced modulo `2^64`). -/
def clockevents_delta2clc (delta : Int) (dev : ClockEventDevice) : Nat :=
  ((toU64 delta * dev.mult) % 2 ^ 64) >>> dev.shift

/-- Result of `clockevents_set_mode` / `clockevents_shutdown`: the updated
device, the arguments of the `dev->set_mode` callback invocations made (in
order), and whether `WARN_ON(1)` fired (the zero-`mult` repair). -/
structure SetModeResult where
  dev : ClockEventDevice
  calls : List ClockEventMode
  warned : Bool
deriving DecidableEq

/-- `clockevents_set_mode(dev, mode)`: set the operating mode of the device.
A no-op when the mode is unchanged; otherwise invokes `dev->set_mode(mode, dev)`
and commits the new mode, repairing `mult` to 1 (with `WARN_ON(1)`) when
entering ONESHOT with a zero `mult`. -/
def clockevents_set_mode (dev : ClockEventDevice) (mode : ClockEventMode) : SetModeResult :=
  if dev.mode ≠ mode then
    let dev := { dev with mode := mode }
    if mode = ClockEventMode.ONESHOT ∧ dev.mult = 0 then
      { dev := { dev with mult := 1 }, calls := [mode], warned := true }
    else
      { dev := dev, calls := [mode], warned := false }
  else
    { dev := dev, calls := [], warned := false }

/-- `clockevents_shutdown(dev)`: shutdown the device and clear `next_event`
to `KTIME_MAX`. -/
def clockevents_shutdown (dev : ClockEventDevice) : SetModeResult :=
  let r := clockevents_set_mode dev ClockEventMode.SHUTDOWN
  { r with dev := { r.dev with next_event := KTIME_MAX } }

/-- The growth step of `clockevents_increase_min_delta` applied to a
`min_delta_ns` value below the limit: raise it to the 5000 ns floor, or by
half of itself (`dev->min_delta_ns += dev->min_delta_ns >> 1`), then cap it
at the limit. -/
def min_delta_grow (limit d : Nat) : Nat :=
  let g := if d < 5000 then 5000 else d + (d >>> 1)
  if g > limit then limit else g

/-- Number of growth steps `min_delta_grow` takes to carry `d` up to `limit`;
this is the termination measure of the adaptive reprogramming loop. -/
def growth_steps (limit d : Nat) : Nat :=
  if limit ≤ d then 0 else 1 + growth_steps limit (min_delta_grow limit d)
termination_by limit - d
decreasing_by
  simp only [min_delta_grow]
  split
  · split
    all_goals omega
  · split
    all_goals omega

/-- `clockevents_increase_min_delta(dev)` (CONFIG_GENERIC_CLOCKEVENTS_MIN_ADJUST):
return `-ETIME` and park `next_event` at `KTIME_MAX` when `min_delta_ns` has
already reached `MIN_DELTA_LIMIT`, else grow `min_delta_ns` and return 0.
`MIN_DELTA_LIMIT = NSEC_PER_SEC / HZ` is a build-time constant (`HZ` comes
from the kernel configuration, which is outside this file), so it is passed
here as the explicit parameter `limit`. -/
def clockevents_increase_min_delta (limit : Nat) (dev : ClockEventDevice) :
    Int × ClockEventDevice :=
  if limit ≤ dev.min_delta_ns then
    (-ETIME, { dev with next_event := KTIME_MAX })
  else
    (0, { dev with min_delta_ns := min_delta_grow limit dev.min_delta_ns })

theorem increase_min_delta_fst_ne_zero_iff (limit : Nat) (dev : ClockEventDevice) :
    (clockevents_increase_min_delta limit dev).1 ≠ 0 ↔ limit ≤ dev.min_delta_ns := by
  unfold clockevents_increase_min_delta
  split
  · simpa [ETIME] using ‹limit ≤ dev.min_delta_ns›
  · simp; omega

theorem increase_min_delta_of_lt (limit : Nat) (dev : ClockEventDevice)
    (h : dev.min_delta_ns < limit) :
    clockevents_increase_min_delta limit dev =
      (0, { dev with min_delta_ns := min_delta_grow limit dev.min_delta_ns }) := by
  unfold clockevents_increase_min_delta
  split
  · omega
  · rfl

theorem increase_min_delta_of_ge (limit : Nat) (dev : ClockEventDevice)
    (h : limit ≤ dev.min_delta_ns) :
    clockevents_increase_min_delta limit dev =
      (-ETIME, { dev with next_event := KTIME_MAX }) := by
  unfold clockevents_increase_min_delta
  split
  · rfl
  · omega

theorem growth_steps_of_lt (limit d : Nat) (h : d < limit) :
    growth_steps limit d = 1 + growth_steps limit (min_delta_grow limit d) := by
  rw [growth_steps]
  split
  · omega
  · rfl

/-- Result of `clockevents_program_event` and its minimum-delta fallbacks:
the return code, the updated device, and the arguments of the calls made to
`dev->set_next_event` and `dev->set_next_ktime` (in call order). -/
structure ProgramResult where
  rc : Int
  dev : ClockEventDevice
  sne : List Nat
  snk : List Int
deriving DecidableEq

theorem increase_min_delta_fst_eq_zero (limit : Nat) (dev : ClockEventDevice)
    (h : (clockevents_increase_min_delta limit dev).1 = 0) :
    dev.min_delta_ns < limit := by
  by_contra hge
  rw [increase_min_delta_of_ge limit dev (by omega)] at h
  simp [ETIME] at h

theorem increase_min_delta_snd_min (limit : Nat) (dev : ClockEventDevice)
    (h : dev.min_delta_ns < limit) :
    (clockevents_increase_min_delta limit dev).2.min_delta_ns =
      min_delta_grow limit dev.min_delta_ns := by
  rw [increase_min_delta_of_lt limit dev h]

@[simp] theorem increase_min_delta_snd_mode (limit : Nat) (dev : ClockEventDevice) :
    (clockevents_increase_min_delta limit dev).2.mode = dev.mode := by
  unfold clockevents_increase_min_delta
  split
  all_goals rfl

/-- The per-iteration device update of the `clockevents_program_min_delta`
loop: store `next_event = ktime_get() + min_delta_ns` and count the retry. -/
def min_delta_touch (env : ClockEnv) (dev : ClockEventDevice) : ClockEventDevice :=
  { dev with next_event := wrap64 (env.now + u64toI64 dev.min_delta_ns),
             retries := dev.retries + 1 }

@[simp] theorem min_delta_touch_min_delta_ns (env : ClockEnv) (dev : ClockEventDevice) :
    (min_delta_touch env dev).min_delta_ns = dev.min_delta_ns := rfl

@[simp] theorem min_delta_touch_mode (env : ClockEnv) (dev : ClockEventDevice) :
    (min_delta_touch env dev).mode = dev.mode := rfl

/-- The tick count armed by one iteration of the `clockevents_program_min_delta`
loop: `clc = ((unsigned long long) delta * dev->mult) >> dev->shift` with
`delta = dev->min_delta_ns`, truncated to `unsigned long` at the
`dev->set_next_event` call site. -/
def min_delta_clc (dev : ClockEventDevice) : Nat :=
  clockevents_delta2clc (u64toI64 dev.min_delta_ns) dev % 2 ^ 32

/-- The `for (i = 0;;)` loop of `clockevents_program_min_delta`
(CONFIG_GENERIC_CLOCKEVENTS_MIN_ADJUST variant).  `i` is the consecutive
failure counter of the source; `acc` accumulates (reversed) the tick counts
already passed to `dev->set_next_event`.  Each iteration recomputes
`delta = dev->min_delta_ns`, stores `next_event = ktime_get() + delta`,
succeeds as a no-op when the device was shut down meanwhile, increments
`retries`, converts to ticks and arms; every third consecutive failure grows
`min_delta_ns`, and the loop exits with `-ETIME` once the growth limit is
reached. -/
def clockevents_program_min_delta_go (limit : Nat) (env : ClockEnv)
    (dev : ClockEventDevice) (i : Nat) (acc : List Nat) : ProgramResult :=
  if dev.mode = ClockEventMode.SHUTDOWN then
    { rc := 0,
      dev := { dev with next_event := wrap64 (env.now + u64toI64 dev.min_delta_ns) },
      sne := acc.reverse, snk := [] }
  else if env.set_next_event (min_delta_clc dev) = 0 then
    { rc := 0, dev := min_delta_touch env dev,
      sne := (min_delta_clc dev :: acc).reverse, snk := [] }
  else if i + 1 > 2 then
    if (clockevents_increase_min_delta limit (min_delta_touch env dev)).1 ≠ 0 then
      { rc := -ETIME,
        dev := (clockevents_increase_min_delta limit (min_delta_touch env dev)).2,
        sne := (min_delta_clc dev :: acc).reverse, snk := [] }
    else
      clockevents_program_min_delta_go limit env
        (clockevents_increase_min_delta limit (min_delta_touch env dev)).2 0
        (min_delta_clc dev :: acc)
  else
    clockevents_program_min_delta_go limit env (min_delta_touch env dev) (i + 1)
      (min_delta_clc dev :: acc)
termination_by 4 * growth_steps limit dev.min_delta_ns + (3 - i)
decreasing_by
  · rename_i hrc
    have h0 : (clockevents_increase_min_delta limit (min_delta_touch env dev)).1 = 0 :=
      of_not_not hrc
    have hlt : (min_delta_touch env dev).min_delta_ns < limit :=
      increase_min_delta_fst_eq_zero _ _ h0
    rw [increase_min_delta_snd_min _ _ hlt]
    simp only [min_delta_touch_min_delta_ns] at hlt ⊢
    rw [growth_steps_of_lt _ _ hlt]
    omega
  · simp only [min_delta_touch_min_delta_ns]
    omega

/-- `clockevents_program_min_delta(dev)`, adaptive
(CONFIG_GENERIC_CLOCKEVENTS_MIN_ADJUST) variant: try to program the minimum
delta, raising `min_delta_ns` on repeated failure. -/
def clockevents_program_min_delta (limit : Nat) (env : ClockEnv)
    (dev : ClockEventDevice) : ProgramResult :=
  clockevents_program_min_delta_go limit env dev 0 []

/-- `clockevents_program_min_delta(dev)`, single-attempt variant (the
`#else` branch, compiled when CONFIG_GENERIC_CLOCKEVENTS_MIN_ADJUST is off). -/
def clockevents_program_min_delta_single (env : ClockEnv)
    (dev : ClockEventDevice) : ProgramResult :=
  let delta : Int := u64toI64 dev.min_delta_ns
  let dev1 : ClockEventDevice := { dev with next_event := wrap64 (env.now + delta) }
  if dev1.mode = ClockEventMode.SHUTDOWN then
    { rc := 0, dev := dev1, sne := [], snk := [] }
  else
    let dev2 : ClockEventDevice := { dev1 with retries := dev1.retries + 1 }
    let clc : Nat := clockevents_delta2clc delta dev2
    { rc := env.set_next_event (clc % 2 ^ 32), dev := dev2,
      sne := [clc % 2 ^ 32], snk := [] }

theorem program_min_delta_go_fails (limit : Nat) (env : ClockEnv)
    (H : ∀ c, env.set_next_event c ≠ 0) :
    ∀ (n : Nat) (dev : ClockEventDevice) (i : Nat) (acc : List Nat),
      4 * growth_steps limit dev.min_delta_ns + (3 - i) ≤ n →
      dev.mode ≠ ClockEventMode.SHUTDOWN →
      (clockevents_program_min_delta_go limit env dev i acc).rc = -ETIME ∧
      (clockevents_program_min_delta_go limit env dev i acc).dev.next_event = KTIME_MAX := by
  intro n
  induction n using Nat.strong_induction_on with
  | _ n IH =>
    intro dev i acc hn hmode
    rw [clockevents_program_min_delta_go]
    rw [if_neg hmode, if_neg (H _)]
    by_cases hi : i + 1 > 2
    · rw [if_pos hi]
      by_cases hge : limit ≤ dev.min_delta_ns
      · have hne : (clockevents_increase_min_delta limit (min_delta_touch env dev)).1 ≠ 0 := by
          rw [increase_min_delta_fst_ne_zero_iff]
          simpa using hge
        rw [if_pos hne]
        refine ⟨rfl, ?_⟩
        rw [increase_min_delta_of_ge _ _ (by simpa using hge)]
      · push_neg at hge
        have h0 : (clockevents_increase_min_delta limit (min_delta_touch env dev)).1 = 0 := by
          rw [increase_min_delta_of_lt limit (min_delta_touch env dev) (by simpa using hge)]
        rw [if_neg (not_not_intro h0)]
        have hmin : (clockevents_increase_min_delta limit (min_delta_touch env dev)).2.min_delta_ns
            = min_delta_grow limit dev.min_delta_ns := by
          rw [increase_min_delta_snd_min _ _ (by simpa using hge),
            min_delta_touch_min_delta_ns]
        have hmode' :
            (clockevents_increase_min_delta limit (min_delta_touch env dev)).2.mode
              ≠ ClockEventMode.SHUTDOWN := by
          simpa using hmode
        have hgs := growth_steps_of_lt limit dev.min_delta_ns hge
        refine IH (4 * growth_steps limit
            (clockevents_increase_min_delta limit (min_delta_touch env dev)).2.min_delta_ns + 3)
          ?_ _ 0 _ (by omega) hmode'
        rw [hmin]
        omega
    · rw [if_neg hi]
      have hmode' : (min_delta_touch env dev).mode ≠ ClockEventMode.SHUTDOWN := by
        simpa using hmode
      refine IH (4 * growth_steps limit (min_delta_touch env dev).min_delta_ns + (3 - (i + 1)))
        ?_ _ (i + 1) _ (by omega) hmode'
      simp only [min_delta_touch_min_delta_ns]
      omega

/-- `clockevents_program_event(dev, expires, force)`: program the next event
on the device.  `limit` is the build-time `MIN_DELTA_LIMIT` threaded through
to the adaptive minimum-delta fallback. -/
def clockevents_program_event (limit : Nat) (env : ClockEnv)
    (dev : ClockEventDevice) (expires : Int) (force : Bool) : ProgramResult :=
  if expires < 0 then
    { rc := -ETIME, dev := dev, sne := [], snk := [] }
  else
    let dev := { dev with next_event := expires }
    if dev.mode = ClockEventMode.SHUTDOWN then
      { rc := 0, dev := dev, sne := [], snk := [] }
    else if dev.features &&& CLOCK_EVT_FEAT_KTIME ≠ 0 then
      { rc := env.set_next_ktime expires, dev := dev, sne := [], snk := [expires] }
    else
      let delta0 : Int := wrap64 (expires - env.now)
      if delta0 ≤ 0 then
        if force then clockevents_program_min_delta limit env dev
        else { rc := -ETIME, dev := dev, sne := [], snk := [] }
      else
        let delta : Int := max (min delta0 (u64toI64 dev.max_delta_ns)) (u64toI64 dev.min_delta_ns)
        let clc : Nat := clockevents_delta2clc delta dev
        let rc : Int := env.set_next_event (clc % 2 ^ 32)
        if rc ≠ 0 ∧ force then
          let r := clockevents_program_min_delta limit env dev
          { r with sne := (clc % 2 ^ 32) :: r.sne }
        else { rc := rc, dev := dev, sne := [clc % 2 ^ 32], snk := [] }

/-- The notifier reasons, `enum clock_event_nofitiers` of clockchips.h. -/
inductive ClockEventNotify where
  | ADD
  | BROADCAST_ON
  | BROADCAST_OFF
  | BROADCAST_FORCE
  | BROADCAST_ENTER
  | BROADCAST_EXIT
  | SUSPEND
  | RESUME
  | CPU_DYING
  | CPU_DEAD
deriving DecidableEq, Repr

/-- A notification delivered to the `clockevents_chain` subscribers by
`clockevents_do_notify(reason, dev)` on behalf of a device. -/
abbrev DeviceNotif := ClockEventNotify × ClockEventDevice

/-- The global registry state: the `clockevent_devices` (active) and
`clockevents_released` (pending re-add) lists.  `list_add` inserts at the
head of a list, which is how both lists are built here. -/
structure Registry where
  clockevent_devices : List ClockEventDevice
  clockevents_released : List ClockEventDevice
deriving DecidableEq

/-- The `while (!list_empty(&clockevents_released))` loop of
`clockevents_notify_released`: move each released device (taken from the
head) onto the active list and notify the chain with CLOCK_EVT_NOTIFY_ADD
for it.  Returns the final active list and the notifications in the order
they fired. -/
def clockevents_notify_released_go :
    List ClockEventDevice → List ClockEventDevice →
      List ClockEventDevice × List DeviceNotif
  | [], active => (active, [])
  | d :: rest, active =>
      let r := clockevents_notify_released_go rest (d :: active)
      (r.1, (ClockEventNotify.ADD, d) :: r.2)

/-- `clockevents_notify_released()`: drain the released backlog into the
active list, notifying each device individually. -/
def clockevents_notify_released (reg : Registry) : Registry × List DeviceNotif :=
  let r := clockevents_notify_released_go reg.clockevents_released reg.clockevent_devices
  ({ clockevent_devices := r.1, clockevents_released := [] }, r.2)

/-- `clockevents_register_device(dev)`: register a clock event device.
`BUG_ON(dev->mode != CLOCK_EVT_MODE_UNUSED)` is modelled as `none` (a fatal
assertion); a NULL `cpumask` is defaulted to the registering processor
`cur_cpu` (`cpumask_of(smp_processor_id())`).  Under the lock the device is
added to the active list, the chain is notified with CLOCK_EVT_NOTIFY_ADD,
and the released backlog is drained. -/
def clockevents_register_device (cur_cpu : Nat) (reg : Registry)
    (dev : ClockEventDevice) : Option (Registry × List DeviceNotif) :=
  if dev.mode ≠ ClockEventMode.UNUSED then none
  else
    let dev := if dev.cpumask = none then { dev with cpumask := some {cur_cpu} } else dev
    let reg := { reg with clockevent_devices := dev :: reg.clockevent_devices }
    let r := clockevents_notify_released reg
    some (r.1, (ClockEventNotify.ADD, dev) :: r.2)

/-- `cpumask_test_cpu(cpu, dev->cpumask)`.  A registered device never has a
NULL `cpumask` (registration defaults it), so the NULL case — which would
fault in C — is read as the empty set here. -/
def cpumask_test_cpu (cpu : Nat) (dev : ClockEventDevice) : Bool :=
  cpu ∈ dev.cpumask.getD ∅

/-- `cpumask_weight(dev->cpumask)`: the number of processors in the
affinity set. -/
def cpumask_weight (dev : ClockEventDevice) : Nat :=
  (dev.cpumask.getD ∅).card

/-- The removal condition of the CLOCK_EVT_NOTIFY_CPU_DEAD case of
`clockevents_notify`: the device is affine to the dead `cpu`, exclusively
owned (affinity weight 1), and not the broadcast device.
`tick_is_broadcast_device` lives in the tick layer (outside this file), so
it is the explicit parameter `is_broadcast`. -/
def cpu_dead_removes (is_broadcast : ClockEventDevice → Bool) (cpu : Nat)
    (dev : ClockEventDevice) : Bool :=
  cpumask_test_cpu cpu dev && cpumask_weight dev == 1 && !is_broadcast dev

/-- The `list_for_each_entry_safe` walk over `clockevent_devices` in the
CLOCK_EVT_NOTIFY_CPU_DEAD case: unlink each device satisfying the removal
condition, with `BUG_ON(dev->mode != CLOCK_EVT_MODE_UNUSED)` (modelled as
`none`) asserted on every removed device. -/
def clockevents_cpu_dead_prune (is_broadcast : ClockEventDevice → Bool) (cpu : Nat) :
    List ClockEventDevice → Option (List ClockEventDevice)
  | [] => some []
  | d :: rest =>
      if cpu_dead_removes is_broadcast cpu d then
        if d.mode = ClockEventMode.UNUSED then
          clockevents_cpu_dead_prune is_broadcast cpu rest
        else none
      else
        (clockevents_cpu_dead_prune is_broadcast cpu rest).map (d :: ·)

/-- `clockevents_notify(reason, arg)`: under the lock, broadcast `reason` to
the chain, then apply the CLOCK_EVT_NOTIFY_CPU_DEAD side effects: drop every
device still sitting in `clockevents_released` unconditionally, then prune
from `clockevent_devices` the exclusively-owned non-broadcast devices affine
to the dead `cpu` (`arg`).  All other reasons are pass-through.  Returns the
new registry and the reasons broadcast to the chain. -/
def clockevents_notify (is_broadcast : ClockEventDevice → Bool)
    (reason : ClockEventNotify) (cpu : Nat) (reg : Registry) :
    Option (Registry × List ClockEventNotify) :=
  match reason with
  | ClockEventNotify.CPU_DEAD =>
      match clockevents_cpu_dead_prune is_broadcast cpu reg.clockevent_devices with
      | none => none
      | some act =>
          some ({ clockevent_devices := act, clockevents_released := [] }, [reason])
  | _ => some (reg, [reason])

/-!  Arithmetic facts about `cev_delta2ns` in the range its inputs actually
inhabit: `latch` is an `unsigned long` (< 2^32), `mult` a non-zero `u32`,
and `shift ≤ 32` (as produced by `clocks_calc_mult_shift`; larger shifts
would make `1U << evt->shift` undefined in the C source).  In that range the
`latch << shift` never overflows 64 bits, so the `~0ULL` clamp is inert, and
adding `rnd` never overflows either, so the headroom guard is always met. -/

theorem cev_clamp_eq (latch shift : Nat) (hl : latch < 2 ^ 32) (hs : shift ≤ 32) :
    cev_clamp latch shift = latch * 2 ^ shift := by
  have h2s : (2 : Nat) ^ shift ≤ 2 ^ 32 := Nat.pow_le_pow_right (by norm_num) hs
  have hprod : latch * 2 ^ shift ≤ (2 ^ 32 - 1) * 2 ^ 32 :=
    Nat.mul_le_mul (by omega) h2s
  have hlt : latch * 2 ^ shift < 2 ^ 64 := by
    have : ((2 : Nat) ^ 32 - 1) * 2 ^ 32 < 2 ^ 64 := by norm_num
    omega
  unfold cev_clamp
  rw [Nat.shiftLeft_eq, Nat.mod_eq_of_lt hlt, Nat.shiftRight_eq_div_pow,
    Nat.mul_div_cancel _ (Nat.pos_pow_of_pos shift (by norm_num))]
  simp

theorem cev_round_no_overflow (clc rnd mult shift : Nat) (ismax : Bool)
    (hc : clc ≤ (2 ^ 32 - 1) * 2 ^ 32) (hr : rnd < 2 ^ 32 - 1) :
    cev_round clc rnd mult shift ismax =
      clc + (if ismax = false ∨ mult ≤ 2 ^ shift % 2 ^ 32 then rnd else 0) := by
  have hguard : 2 ^ 64 - 1 - clc > rnd := by
    have : ((2 : Nat) ^ 32 - 1) * 2 ^ 32 = 2 ^ 64 - 2 ^ 32 := by norm_num
    have h32 : (2 : Nat) ^ 32 = 4294967296 := by norm_num
    have h64 : (2 : Nat) ^ 64 = 18446744073709551616 := by norm_num
    omega
  unfold cev_round
  by_cases hP : ismax = false ∨ mult ≤ 2 ^ shift % 2 ^ 32
  · rw [if_pos ⟨hguard, hP⟩, if_pos hP]
  · rw [if_neg (by tauto), if_neg hP, Nat.add_zero]

/-- Closed form of `cev_delta2ns` for in-range inputs: no 64-bit overflow is
possible, so the result is the (conditionally rounded-up) scaled quotient,
clamped below by 1000 ns. -/
theorem cev_delta2ns_eq (latch : Nat) (dev : ClockEventDevice) (ismax : Bool)
    (hm0 : 0 < dev.mult) (hm : dev.mult < 2 ^ 32) (hs : dev.shift ≤ 32)
    (hl : latch < 2 ^ 32) :
    cev_delta2ns latch dev ismax =
      max ((latch * 2 ^ dev.shift +
            (if ismax = false ∨ dev.mult ≤ 2 ^ dev.shift % 2 ^ 32
             then dev.mult - 1 else 0)) / dev.mult) 1000 := by
  have h2s : (2 : Nat) ^ dev.shift ≤ 2 ^ 32 := Nat.pow_le_pow_right (by norm_num) hs
  have hprod : latch * 2 ^ dev.shift ≤ (2 ^ 32 - 1) * 2 ^ 32 :=
    Nat.mul_le_mul (by omega) h2s
  have hmult : (if dev.mult = 0 then 1 else dev.mult) = dev.mult := by
    rw [if_neg (by omega)]
  have hfin : ∀ q : Nat, (if q > 1000 then q else 1000) = max q 1000 := by
    intro q
    rw [Nat.max_def]
    split
    · split
      all_goals omega
    · split
      all_goals omega
  unfold cev_delta2ns
  simp only [hmult]
  rw [cev_clamp_eq latch dev.shift hl hs,
    cev_round_no_overflow _ _ _ _ _ hprod (by omega), hfin]

theorem notify_released_go_mem :
    ∀ (rel act : List ClockEventDevice),
      (∀ x ∈ act, x ∈ (clockevents_notify_released_go rel act).1) ∧
      (∀ d ∈ rel, d ∈ (clockevents_notify_released_go rel act).1 ∧
        (ClockEventNotify.ADD, d) ∈ (clockevents_notify_released_go rel act).2) := by
  intro rel
  induction rel with
  | nil =>
      intro act
      constructor
      · intro x hx
        simpa [clockevents_notify_released_go] using hx
      · intro d hd
        simp at hd
  | cons d rest IH =>
      intro act
      constructor
      · intro x hx
        simp only [clockevents_notify_released_go]
        exact (IH (d :: act)).1 x (List.mem_cons_of_mem d hx)
      · intro e he
        simp only [clockevents_notify_released_go]
        rcases List.mem_cons.mp he with rfl | hrest
        · exact ⟨(IH (e :: act)).1 e (List.mem_cons_self e act),
            List.mem_cons_self _ _⟩
        · exact ⟨((IH (d :: act)).2 e hrest).1,
            List.mem_cons_of_mem _ ((IH (d :: act)).2 e hrest).2⟩

theorem cpu_dead_prune_eq_filter :
    ∀ (is_broadcast : ClockEventDevice → Bool) (cpu : Nat) (l : List ClockEventDevice),
      (∀ d ∈ l, cpu_dead_removes is_broadcast cpu d = true →
        d.mode = ClockEventMode.UNUSED) →
      clockevents_cpu_dead_prune is_broadcast cpu l =
        some (l.filter (fun d => !cpu_dead_removes is_broadcast cpu d)) := by
  intro isB cpu l
  induction l with
  | nil =>
      intro _
      rfl
  | cons d rest IH =>
      intro H
      have Hrest : ∀ e ∈ rest, cpu_dead_removes isB cpu e = true →
          e.mode = ClockEventMode.UNUSED :=
        fun e he hre => H e (List.mem_cons_of_mem _ he) hre
      simp only [clockevents_cpu_dead_prune]
      by_cases hc : cpu_dead_removes isB cpu d = true
      · rw [if_pos hc, if_pos (H d (List.mem_cons_self _ _) hc), IH Hrest,
          List.filter_cons, if_neg (by simp [hc])]
      · rw [if_neg hc, IH Hrest, List.filter_cons,
          if_pos (by simp [Bool.not_eq_true] at hc ⊢; exact hc)]
        rfl

theorem toU64_u64toI64 (n : Nat) (h : n < 2 ^ 64) : toU64 (u64toI64 n) = n := by
  unfold toU64 u64toI64 wrap64
  omega

/-- A concrete in-range device used to instantiate the universally
quantified theorems below on explicit inputs. -/
def testDev : ClockEventDevice :=
  { mult := 3, shift := 1, mode := ClockEventMode.UNUSED, next_event := 0,
    min_delta_ns := 1000, max_delta_ns := 100000, min_delta_ticks := 5,
    max_delta_ticks := 1000, retries := 0, features := 0, cpumask := some {0} }

/-- C2: for every latch value `L` (an `unsigned long`, hence below `2^32`)
and every device with `mult > 0` (and in-range `u32` scale fields),
`cev_delta2ns(L, dev, ismax)` is at least 1000 ns, and it is non-decreasing
in `L` for fixed `mult`, `shift` and `ismax`.  The 1000 ns floor needs no
range hypotheses at all. -/
theorem cev_delta2ns_floor_and_monotone :
    ∀ (dev : ClockEventDevice) (ismax : Bool),
      (∀ latch, 1000 ≤ cev_delta2ns latch dev ismax) ∧
      (∀ latch1 latch2, 0 < dev.mult → dev.mult < 2 ^ 32 → dev.shift ≤ 32 →
        latch1 < 2 ^ 32 → latch2 < 2 ^ 32 → latch1 ≤ latch2 →
        cev_delta2ns latch1 dev ismax ≤ cev_delta2ns latch2 dev ismax) := by
  intro dev ismax
  constructor
  · intro latch
    have hfloor : ∀ q : Nat, 1000 ≤ (if q > 1000 then q else 1000) := by
      intro q
      split
      · omega
      · omega
    simp only [cev_delta2ns]
    exact hfloor _
  · intro latch1 latch2 hm0 hm hs hl1 hl2 h12
    rw [cev_delta2ns_eq latch1 dev ismax hm0 hm hs hl1,
      cev_delta2ns_eq latch2 dev ismax hm0 hm hs hl2]
    refine max_le_max ?_ (le_refl 1000)
    refine Nat.div_le_div_right ?_
    exact Nat.add_le_add_right (Nat.mul_le_mul_right _ h12) _

theorem cev_delta2ns_floor_and_monotone_witness :
    1000 ≤ cev_delta2ns 5 testDev false ∧
    cev_delta2ns 5 testDev false ≤ cev_delta2ns 7 testDev false :=
  ⟨(cev_delta2ns_floor_and_monotone testDev false).1 5,
   (cev_delta2ns_floor_and_monotone testDev false).2 5 7 (by decide) (by decide)
     (by decide) (by decide) (by decide) (by decide)⟩

/-- C3: converting `min_delta_ticks` to nanoseconds with
`cev_delta2ns(min_delta_ticks, dev, false)` and back to device ticks with
the same scale factor, as the event programmer does
(`((unsigned long long) delta * dev->mult) >> dev->shift` on the `int64_t`
value), never falls below the original `min_delta_ticks`: the device is
never under-armed below its hardware floor. -/
theorem cev_min_delta_round_trip :
    ∀ (dev : ClockEventDevice), 0 < dev.mult → dev.mult < 2 ^ 32 →
      dev.shift ≤ 32 → dev.min_delta_ticks < 2 ^ 32 →
      dev.min_delta_ticks ≤
        clockevents_delta2clc
          (u64toI64 (cev_delta2ns dev.min_delta_ticks dev false)) dev := by
  intro dev hm0 hm hs hl
  have heq := cev_delta2ns_eq dev.min_delta_ticks dev false hm0 hm hs hl
  rw [if_pos (Or.inl rfl)] at heq
  have h2s : (2 : Nat) ^ dev.shift ≤ 2 ^ 32 := Nat.pow_le_pow_right (by norm_num) hs
  have hprod : dev.min_delta_ticks * 2 ^ dev.shift ≤ (2 ^ 32 - 1) * 2 ^ 32 :=
    Nat.mul_le_mul (by omega) h2s
  have hq : (dev.min_delta_ticks * 2 ^ dev.shift + (dev.mult - 1)) / dev.mult * dev.mult ≤
      dev.min_delta_ticks * 2 ^ dev.shift + (dev.mult - 1) := Nat.div_mul_le_self _ _
  have hq2 : dev.min_delta_ticks * 2 ^ dev.shift ≤
      (dev.min_delta_ticks * 2 ^ dev.shift + (dev.mult - 1)) / dev.mult * dev.mult := by
    have hdm := Nat.div_add_mod (dev.min_delta_ticks * 2 ^ dev.shift + (dev.mult - 1)) dev.mult
    have hr : (dev.min_delta_ticks * 2 ^ dev.shift + (dev.mult - 1)) % dev.mult < dev.mult :=
      Nat.mod_lt _ hm0
    rw [Nat.mul_comm
      ((dev.min_delta_ticks * 2 ^ dev.shift + (dev.mult - 1)) / dev.mult) dev.mult]
    omega
  have hns_ge : (dev.min_delta_ticks * 2 ^ dev.shift + (dev.mult - 1)) / dev.mult ≤
      cev_delta2ns dev.min_delta_ticks dev false := by
    rw [heq]
    exact le_max_left _ _
  have hnsmul_lt : cev_delta2ns dev.min_delta_ticks dev false * dev.mult < 2 ^ 64 := by
    rw [heq]
    rcases Nat.le_total
        ((dev.min_delta_ticks * 2 ^ dev.shift + (dev.mult - 1)) / dev.mult) 1000 with hc | hc
    · rw [Nat.max_eq_right hc]
      omega
    · rw [Nat.max_eq_left hc]
      omega
  have key : dev.min_delta_ticks * 2 ^ dev.shift ≤
      cev_delta2ns dev.min_delta_ticks dev false * dev.mult :=
    le_trans hq2 (Nat.mul_le_mul_right _ hns_ge)
  have hns_lt : cev_delta2ns dev.min_delta_ticks dev false < 2 ^ 64 := by
    have := Nat.le_mul_of_pos_right (cev_delta2ns dev.min_delta_ticks dev false) hm0
    omega
  unfold clockevents_delta2clc
  rw [toU64_u64toI64 _ hns_lt, Nat.mod_eq_of_lt hnsmul_lt, Nat.shiftRight_eq_div_pow]
  have hdiv := Nat.div_le_div_right (c := 2 ^ dev.shift) key
  rwa [Nat.mul_div_cancel _ (Nat.pos_pow_of_pos dev.shift (by norm_num))] at hdiv

theorem cev_min_delta_round_trip_witness :
    testDev.min_delta_ticks ≤
      clockevents_delta2clc
        (u64toI64 (cev_delta2ns testDev.min_delta_ticks testDev false)) testDev :=
  cev_min_delta_round_trip testDev (by decide) (by decide) (by decide) (by decide)

/-- C4: in `cev_delta2ns`, after the shift-overflow clamp, the rounding term
`rnd = mult - 1` is added to `clc` exactly when the 64-bit addition does not
overflow and it is not the case that `is_max` holds together with
`mult > 2^shift`; in particular, for `is_max = false` the rounding term is
always added (the addition cannot overflow for in-range inputs).  Stated over
the defined-behaviour range of the C expression `1U << evt->shift`
(`shift ≤ 31`). -/
theorem cev_round_add_iff :
    ∀ (latch : Nat) (dev : ClockEventDevice) (ismax : Bool),
      0 < dev.mult → dev.mult < 2 ^ 32 → dev.shift ≤ 31 → latch < 2 ^ 32 →
      (cev_round (cev_clamp latch dev.shift) (dev.mult - 1) dev.mult dev.shift ismax
        = if cev_clamp latch dev.shift + (dev.mult - 1) < 2 ^ 64 ∧
              ¬(ismax = true ∧ 2 ^ dev.shift < dev.mult)
          then cev_clamp latch dev.shift + (dev.mult - 1)
          else cev_clamp latch dev.shift) ∧
      (ismax = false →
        cev_round (cev_clamp latch dev.shift) (dev.mult - 1) dev.mult dev.shift ismax
          = cev_clamp latch dev.shift + (dev.mult - 1)) := by
  intro latch dev ismax hm0 hm hs hl
  have hs' : dev.shift ≤ 32 := by omega
  have h2s : (2 : Nat) ^ dev.shift ≤ 2 ^ 31 := Nat.pow_le_pow_right (by norm_num) hs
  have h31 : (2 : Nat) ^ 31 < 2 ^ 32 := by norm_num
  have hmod : 2 ^ dev.shift % 2 ^ 32 = 2 ^ dev.shift := Nat.mod_eq_of_lt (by omega)
  have hprod : latch * 2 ^ dev.shift ≤ (2 ^ 32 - 1) * 2 ^ 32 :=
    Nat.mul_le_mul (by omega) (Nat.pow_le_pow_right (by norm_num) hs')
  have hclamp := cev_clamp_eq latch dev.shift hl hs'
  rw [cev_round_no_overflow _ _ _ _ _ (hclamp ▸ hprod) (by omega), hclamp, hmod]
  cases ismax with
  | false =>
      constructor
      · rw [if_pos (Or.inl rfl), if_pos ⟨by omega, by simp⟩]
      · intro _
        rw [if_pos (Or.inl rfl)]
  | true =>
      constructor
      · by_cases hmle : dev.mult ≤ 2 ^ dev.shift
        · rw [if_pos (Or.inr hmle), if_pos ⟨by omega, by simp; omega⟩]
        · rw [if_neg (by simpa using hmle), if_neg (by simp; omega), Nat.add_zero]
      · intro hfalse
        exact absurd hfalse (by simp)

/-- An environment whose `set_next_event` callback fails (returns `-EBUSY`-style
nonzero) on every invocation. -/
def failEnv : ClockEnv :=
  { now := 0, set_next_event := fun _ => -1, set_next_ktime := fun _ => -1 }

/-- An environment whose clock reads 1 ns, so a target time of 0 lies in the
past; its callbacks succeed. -/
def pastEnv : ClockEnv :=
  { now := 1, set_next_event := fun _ => 0, set_next_ktime := fun _ => 0 }

/-- A concrete device already in SHUTDOWN mode with `next_event` parked at
`KTIME_MAX`, as `clockevents_shutdown` leaves it. -/
def shutdownDev : ClockEventDevice :=
  { mult := 3, shift := 1, mode := ClockEventMode.SHUTDOWN, next_event := KTIME_MAX,
    min_delta_ns := 1000, max_delta_ns := 100000, min_delta_ticks := 5,
    max_delta_ticks := 1000, retries := 0, features := 0, cpumask := some {0} }

/-- C1: under the adaptive minimum-delta policy, for a device whose
`set_next_event` callback fails on every invocation and whose mode is not
SHUTDOWN, `clockevents_program_min_delta` terminates (it is a total function
here, by well-founded recursion on the growth measure) and returns `-ETIME`
with `next_event` parked at `KTIME_MAX`; the growth steps behind it raise
`min_delta_ns` first to the 5000 ns floor, then by a factor of 1.5 per step,
capped at `MIN_DELTA_LIMIT`, and once the limit is reached the next growth
attempt gives up with `-ETIME` and `next_event = KTIME_MAX`. -/
theorem program_min_delta_adaptive_terminates :
    (∀ (limit : Nat) (env : ClockEnv) (dev : ClockEventDevice),
        (∀ clc, env.set_next_event clc ≠ 0) →
        dev.mode ≠ ClockEventMode.SHUTDOWN →
        (clockevents_program_min_delta limit env dev).rc = -ETIME ∧
        (clockevents_program_min_delta limit env dev).dev.next_event = KTIME_MAX) ∧
    (∀ (limit : Nat) (dev : ClockEventDevice),
        dev.min_delta_ns < 5000 → 5000 ≤ limit →
        clockevents_increase_min_delta limit dev =
          (0, { dev with min_delta_ns := 5000 })) ∧
    (∀ (limit : Nat) (dev : ClockEventDevice),
        5000 ≤ dev.min_delta_ns → dev.min_delta_ns < limit →
        clockevents_increase_min_delta limit dev =
          (0,
           { dev with min_delta_ns := min limit (dev.min_delta_ns + dev.min_delta_ns / 2) })) ∧
    (∀ (limit : Nat) (dev : ClockEventDevice),
        limit ≤ dev.min_delta_ns →
        clockevents_increase_min_delta limit dev =
          (-ETIME, { dev with next_event := KTIME_MAX })) := by
  refine ⟨?_, ?_, ?_, ?_⟩
  · intro limit env dev H hmode
    exact program_min_delta_go_fails limit env H
      (4 * growth_steps limit dev.min_delta_ns + 3) dev 0 [] (by omega) hmode
  · intro limit dev h5 hl
    rw [increase_min_delta_of_lt limit dev (by omega)]
    have hg : min_delta_grow limit dev.min_delta_ns = 5000 := by
      simp only [min_delta_grow]
      rw [if_pos h5, if_neg (by omega)]
    rw [hg]
  · intro limit dev h5 hl
    rw [increase_min_delta_of_lt limit dev hl]
    have hsr : dev.min_delta_ns >>> 1 = dev.min_delta_ns / 2 := by
      rw [Nat.shiftRight_eq_div_pow]
    have hg : min_delta_grow limit dev.min_delta_ns =
        min limit (dev.min_delta_ns + dev.min_delta_ns / 2) := by
      simp only [min_delta_grow]
      rw [if_neg (show ¬dev.min_delta_ns < 5000 by omega), hsr, Nat.min_def]
      split
      · split
        all_goals omega
      · split
        all_goals omega
    rw [hg]
  · intro limit dev h
    exact increase_min_delta_of_ge limit dev h

theorem program_min_delta_adaptive_terminates_witness :
    (clockevents_program_min_delta 10000000 failEnv testDev).rc = -ETIME ∧
    (clockevents_program_min_delta 10000000 failEnv testDev).dev.next_event = KTIME_MAX :=
  program_min_delta_adaptive_terminates.1 10000000 failEnv testDev
    (fun clc => by
      show (-1 : Int) ≠ 0
      decide)
    (by decide)

/-- Device state and trace of a `clockevents_program_event` call on a device
already in SHUTDOWN mode: it records `next_event := expires` and succeeds as
a no-op, touching nothing else and invoking no callback. -/
theorem program_event_on_shutdown (limit : Nat) (env : ClockEnv)
    (dev : ClockEventDevice) (t : Int) (force : Bool)
    (hmode : dev.mode = ClockEventMode.SHUTDOWN) (ht : 0 ≤ t) :
    clockevents_program_event limit env dev t force =
      { rc := 0, dev := { dev with next_event := t }, sne := [], snk := [] } := by
  simp only [clockevents_program_event]
  rw [if_neg (by omega), if_pos (by simpa using hmode)]

/-- C5, amended: a `program` call with a non-negative target time already in
the past (`delta = expires - now ≤ 0`, computed in wrapping `s64`) and
`force = false` fails with `-ETIME` — provided the device is not shut down
(SHUTDOWN succeeds as a no-op) and does not use absolute-`ktime` arming
(that path delegates to `set_next_ktime` before the delta test). -/
theorem program_event_past_not_forced_fails :
    ∀ (limit : Nat) (env : ClockEnv) (dev : ClockEventDevice) (t : Int),
      0 ≤ t → wrap64 (t - env.now) ≤ 0 →
      dev.mode ≠ ClockEventMode.SHUTDOWN →
      dev.features &&& CLOCK_EVT_FEAT_KTIME = 0 →
      (clockevents_program_event limit env dev t false).rc = -ETIME := by
  intro limit env dev t ht hd hm hf
  simp only [clockevents_program_event]
  rw [if_neg (by omega), if_neg (by simpa using hm), if_neg (by simpa using hf),
    if_pos hd, if_neg (by simp)]

theorem program_event_past_not_forced_fails_witness :
    (clockevents_program_event 10000000 pastEnv testDev 0 false).rc = -ETIME :=
  program_event_past_not_forced_fails 10000000 pastEnv testDev 0
    (by decide) (by decide) (by decide) (by decide)

/-- C5, counterexample to the claim as stated: for a device in SHUTDOWN mode
the same past-target unforced `program` call returns success (0), not
`-ETIME`, so the failure is not universal over device states. -/
theorem program_event_past_shutdown_succeeds :
    wrap64 ((0 : Int) - pastEnv.now) ≤ 0 ∧
    (clockevents_program_event 10000000 pastEnv shutdownDev 0 false).rc = 0 ∧
    ¬(clockevents_program_event 10000000 pastEnv shutdownDev 0 false).rc = -ETIME := by
  refine ⟨by decide, ?_, ?_⟩
  · rw [program_event_on_shutdown 10000000 pastEnv shutdownDev 0 false (by decide) (by decide)]
  · rw [program_event_on_shutdown 10000000 pastEnv shutdownDev 0 false (by decide) (by decide)]
    decide

@[simp] theorem set_mode_dev_mode (dev : ClockEventDevice) (mode : ClockEventMode) :
    (clockevents_set_mode dev mode).dev.mode = mode := by
  simp only [clockevents_set_mode]
  split
  · split
    · rfl
    · rfl
  · rename_i h
    exact of_not_not h

/-- C6: `clockevents_shutdown` puts the device in SHUTDOWN mode with
`next_event = KTIME_MAX`, and a subsequent unforced `program` call with any
non-negative time `t` succeeds without invoking `set_next_event` (or
`set_next_ktime`). -/
theorem shutdown_then_program_spec :
    ∀ (limit : Nat) (env : ClockEnv) (dev : ClockEventDevice) (t : Int), 0 ≤ t →
      (clockevents_shutdown dev).dev.mode = ClockEventMode.SHUTDOWN ∧
      (clockevents_shutdown dev).dev.next_event = KTIME_MAX ∧
      (clockevents_program_event limit env (clockevents_shutdown dev).dev t false).rc = 0 ∧
      (clockevents_program_event limit env (clockevents_shutdown dev).dev t false).sne = [] ∧
      (clockevents_program_event limit env (clockevents_shutdown dev).dev t false).snk = [] := by
  intro limit env dev t ht
  have hmode : (clockevents_shutdown dev).dev.mode = ClockEventMode.SHUTDOWN := by
    have h1 : (clockevents_shutdown dev).dev.mode =
        (clockevents_set_mode dev ClockEventMode.SHUTDOWN).dev.mode := rfl
    rw [h1, set_mode_dev_mode]
  refine ⟨hmode, rfl, ?_, ?_, ?_⟩
  · rw [program_event_on_shutdown limit env _ t false hmode ht]
  · rw [program_event_on_shutdown limit env _ t false hmode ht]
  · rw [program_event_on_shutdown limit env _ t false hmode ht]

theorem shutdown_then_program_spec_witness :
    (clockevents_shutdown testDev).dev.mode = ClockEventMode.SHUTDOWN ∧
    (clockevents_shutdown testDev).dev.next_event = KTIME_MAX ∧
    (clockevents_program_event 10000000 pastEnv (clockevents_shutdown testDev).dev 5 false).rc = 0 ∧
    (clockevents_program_event 10000000 pastEnv (clockevents_shutdown testDev).dev 5 false).sne = [] ∧
    (clockevents_program_event 10000000 pastEnv (clockevents_shutdown testDev).dev 5 false).snk = [] :=
  shutdown_then_program_spec 10000000 pastEnv testDev 5 (by decide)

/-- C7: `clockevents_set_mode` is a no-op (no callback invocation, no field
change) when the requested mode equals the current one; otherwise it invokes
the `set_mode` hardware callback with the new mode and commits it, and when
the committed mode is ONESHOT with `mult = 0` it repairs `mult` to 1 in
place with a flagged warning instead of crashing. -/
theorem clockevents_set_mode_spec :
    ∀ (dev : ClockEventDevice) (mode : ClockEventMode),
      (dev.mode = mode →
        clockevents_set_mode dev mode = { dev := dev, calls := [], warned := false }) ∧
      (dev.mode ≠ mode →
        (clockevents_set_mode dev mode).calls = [mode] ∧
        (clockevents_set_mode dev mode).dev.mode = mode ∧
        ((mode = ClockEventMode.ONESHOT ∧ dev.mult = 0) →
          clockevents_set_mode dev mode =
            { dev := { dev with mode := mode, mult := 1 },
              calls := [mode], warned := true }) ∧
        (¬(mode = ClockEventMode.ONESHOT ∧ dev.mult = 0) →
          clockevents_set_mode dev mode =
            { dev := { dev with mode := mode }, calls := [mode], warned := false })) := by
  intro dev mode
  constructor
  · intro h
    simp only [clockevents_set_mode]
    rw [if_neg (not_not_intro h)]
  · intro h
    simp only [clockevents_set_mode]
    rw [if_pos h]
    split
    · rename_i hz
      exact ⟨rfl, rfl, fun _ => rfl, fun hcon => absurd hz hcon⟩
    · rename_i hz
      exact ⟨rfl, rfl, fun hcon => absurd hcon hz, fun _ => rfl⟩

theorem clockevents_set_mode_spec_witness :
    clockevents_set_mode testDev ClockEventMode.UNUSED =
      { dev := testDev, calls := [], warned := false } ∧
    (clockevents_set_mode testDev ClockEventMode.ONESHOT).calls = [ClockEventMode.ONESHOT] :=
  ⟨(clockevents_set_mode_spec testDev ClockEventMode.UNUSED).1 rfl,
   ((clockevents_set_mode_spec testDev ClockEventMode.ONESHOT).2 (by decide)).1⟩

/-- C10: for a device in SHUTDOWN mode and any non-negative target time,
`clockevents_program_event` returns success but still overwrites
`next_event` with the target (so the `KTIME_MAX` stored by shutdown does not
survive), makes no callback, and changes no other field. -/
theorem program_event_shutdown_overwrites :
    ∀ (limit : Nat) (env : ClockEnv) (dev : ClockEventDevice) (t : Int) (force : Bool),
      dev.mode = ClockEventMode.SHUTDOWN → 0 ≤ t →
      clockevents_program_event limit env dev t force =
        { rc := 0, dev := { dev with next_event := t }, sne := [], snk := [] } :=
  fun limit env dev t force h ht => program_event_on_shutdown limit env dev t force h ht

theorem program_event_shutdown_overwrites_witness :
    clockevents_program_event 10000000 pastEnv shutdownDev 7 true =
      { rc := 0, dev := { shutdownDev with next_event := 7 }, sne := [], snk := [] } :=
  program_event_shutdown_overwrites 10000000 pastEnv shutdownDev 7 true
    (by decide) (by decide)

theorem cev_round_add_iff_witness :
    (cev_round (cev_clamp 5 testDev.shift) (testDev.mult - 1) testDev.mult testDev.shift false
      = if cev_clamp 5 testDev.shift + (testDev.mult - 1) < 2 ^ 64 ∧
            ¬(false = true ∧ 2 ^ testDev.shift < testDev.mult)
        then cev_clamp 5 testDev.shift + (testDev.mult - 1)
        else cev_clamp 5 testDev.shift) ∧
    (false = false →
      cev_round (cev_clamp 5 testDev.shift) (testDev.mult - 1) testDev.mult testDev.shift false
        = cev_clamp 5 testDev.shift + (testDev.mult - 1)) :=
  cev_round_add_iff 5 testDev false (by decide) (by decide) (by decide) (by decide)

/-- A released device sitting in the backlog for the registration witness:
UNUSED mode, affine to processor 1. -/
def backlogDev : ClockEventDevice :=
  { mult := 7, shift := 2, mode := ClockEventMode.UNUSED, next_event := 0,
    min_delta_ns := 2000, max_delta_ns := 50000, min_delta_ticks := 2,
    max_delta_ticks := 500, retries := 0, features := 0, cpumask := some {1} }

/-- C8: `clockevents_register_device`, applied to a device in UNUSED mode,
adds it to the active list and fires a device-added notification for it,
then drains the released backlog: every device of the released list ends up
in the active list with its own device-added notification, and the released
list is left empty.  (`A'` is `A` with a NULL `cpumask` defaulted to the
registering processor.) -/
theorem clockevents_register_device_spec :
    ∀ (cur_cpu : Nat) (reg : Registry) (A : ClockEventDevice),
      A.mode = ClockEventMode.UNUSED →
      ∃ reg' ns, clockevents_register_device cur_cpu reg A = some (reg', ns) ∧
        reg'.clockevents_released = [] ∧
        (if A.cpumask = none then { A with cpumask := some {cur_cpu} } else A)
            ∈ reg'.clockevent_devices ∧
        (ClockEventNotify.ADD,
          if A.cpumask = none then { A with cpumask := some {cur_cpu} } else A) ∈ ns ∧
        (∀ B ∈ reg.clockevents_released,
          B ∈ reg'.clockevent_devices ∧ (ClockEventNotify.ADD, B) ∈ ns) := by
  intro cur_cpu reg A hA
  simp only [clockevents_register_device, clockevents_notify_released]
  rw [if_neg (not_not_intro hA)]
  refine ⟨_, _, rfl, rfl, ?_, List.mem_cons_self _ _, ?_⟩
  · exact (notify_released_go_mem reg.clockevents_released _).1 _ (List.mem_cons_self _ _)
  · intro B hB
    exact ⟨((notify_released_go_mem reg.clockevents_released _).2 B hB).1,
      List.mem_cons_of_mem _ ((notify_released_go_mem reg.clockevents_released _).2 B hB).2⟩

theorem clockevents_register_device_spec_witness :
    ∃ reg' ns,
      clockevents_register_device 0
        { clockevent_devices := [], clockevents_released := [backlogDev] } testDev =
          some (reg', ns) ∧
      reg'.clockevents_released = [] ∧
      (if testDev.cpumask = none then { testDev with cpumask := some {0} } else testDev)
          ∈ reg'.clockevent_devices ∧
      (ClockEventNotify.ADD,
        if testDev.cpumask = none then { testDev with cpumask := some {0} } else testDev) ∈ ns ∧
      (∀ B ∈ ({ clockevent_devices := [],
                clockevents_released := [backlogDev] } : Registry).clockevents_released,
        B ∈ reg'.clockevent_devices ∧ (ClockEventNotify.ADD, B) ∈ ns) :=
  clockevents_register_device_spec 0
    { clockevent_devices := [], clockevents_released := [backlogDev] } testDev (by decide)

/-- A device exclusively owned by processor 2, in UNUSED mode: pruned by
`handle_cpu_dead(2)`. -/
def ownedDev : ClockEventDevice :=
  { mult := 3, shift := 1, mode := ClockEventMode.UNUSED, next_event := 0,
    min_delta_ns := 1000, max_delta_ns := 100000, min_delta_ticks := 5,
    max_delta_ticks := 1000, retries := 0, features := 0, cpumask := some {2} }

/-- A device affine to two processors (0 and 2): left untouched by
`handle_cpu_dead(2)`. -/
def multiDev : ClockEventDevice :=
  { mult := 5, shift := 3, mode := ClockEventMode.ONESHOT, next_event := 0,
    min_delta_ns := 3000, max_delta_ns := 200000, min_delta_ticks := 3,
    max_delta_ticks := 800, retries := 0, features := 2, cpumask := some {0, 2} }

/-- C9: `clockevents_notify(CPU_DEAD, &cpu)` first drops every device in the
released backlog unconditionally, then removes from the active list exactly
the devices whose affinity set contains `cpu`, has exactly one member, and
which are not the broadcast device (given that all of those are in UNUSED
mode — otherwise the kernel BUG()s); every other active device — affine to
several processors, or not affine to `cpu`, or the broadcast device — stays
in the active list unchanged. -/
theorem clockevents_notify_cpu_dead_spec :
    ∀ (is_broadcast : ClockEventDevice → Bool) (cpu : Nat) (reg : Registry),
      (∀ d ∈ reg.clockevent_devices,
        cpu_dead_removes is_broadcast cpu d = true → d.mode = ClockEventMode.UNUSED) →
      clockevents_notify is_broadcast ClockEventNotify.CPU_DEAD cpu reg =
        some ({ clockevent_devices :=
                  reg.clockevent_devices.filter
                    (fun d => !cpu_dead_removes is_broadcast cpu d),
                clockevents_released := [] },
              [ClockEventNotify.CPU_DEAD]) ∧
      (∀ d ∈ reg.clockevent_devices,
        cpumask_test_cpu cpu d = false ∨ 1 < cpumask_weight d ∨ is_broadcast d = true →
        d ∈ reg.clockevent_devices.filter
              (fun d => !cpu_dead_removes is_broadcast cpu d)) := by
  intro isB cpu reg H
  constructor
  · simp only [clockevents_notify]
    rw [cpu_dead_prune_eq_filter isB cpu reg.clockevent_devices H]
  · intro d hd hcase
    refine List.mem_filter.mpr ⟨hd, ?_⟩
    have hrem : cpu_dead_removes isB cpu d = false := by
      simp only [cpu_dead_removes, Bool.and_eq_false_iff]
      rcases hcase with h | h | h
      · exact Or.inl (Or.inl h)
      · refine Or.inl (Or.inr ?_)
        simp [Nat.ne_of_gt h]
      · exact Or.inr (by simp [h])
    simp [hrem]

theorem clockevents_notify_cpu_dead_spec_witness :
    clockevents_notify (fun _ => false) ClockEventNotify.CPU_DEAD 2
        { clockevent_devices := [ownedDev, multiDev],
          clockevents_released := [backlogDev] } =
      some ({ clockevent_devices :=
                [ownedDev, multiDev].filter
                  (fun d => !cpu_dead_removes (fun _ => false) 2 d),
              clockevents_released := [] },
            [ClockEventNotify.CPU_DEAD]) ∧
    (∀ d ∈ ({ clockevent_devices := [ownedDev, multiDev],
              clockevents_released := [backlogDev] } : Registry).clockevent_devices,
      cpumask_test_cpu 2 d = false ∨ 1 < cpumask_weight d ∨ (fun _ => false) d = true →
      d ∈ [ownedDev, multiDev].filter (fun d => !cpu_dead_removes (fun _ => false) 2 d)) :=
  clockevents_notify_cpu_dead_spec (fun _ => false) 2
    { clockevent_devices := [ownedDev, multiDev], clockevents_released := [backlogDev] }
    (by decide)

end Clockevents
